import Mathlib

/-!
Verification of the goal-tracker FastAPI backend against its specification.

The backend is shallowly embedded: each database table is a list of records,
the Supabase/PostgREST query operations used by the code (filter by equality,
first-row fetch, row update, insert, ordered select) are modelled as pure
functions on those lists, and each route handler is a function from a
database state and request parameters to an HTTP result together with the
successor state.  Timestamps are modelled as integers, HTTP status codes as
naturals.
-/

/-- Invitation lifecycle status (`InvitationStatus` in `models/team.py`). -/
inductive InvStatus
  | pending
  | accepted
  | declined
  | expired
deriving DecidableEq, Repr

/-- Team member role (`TeamRole` in `models/team.py`). -/
inductive TeamRole
  | owner
  | member
deriving DecidableEq, Repr

/-- A row of the `goals` table (fields of the `Goal` model in `models/goal.py`,
    with `datetime` modelled as `Int`). -/
structure GoalRec where
  id : Nat
  title : String
  description : Option String
  status : String
  target_date : Option Int
  is_public : Bool
  scope : String
  parent_goal_id : Option Nat
  display_order : Nat
  template_id : Option Nat
  user_id : String
  created_at : Int
deriving DecidableEq, Repr

/-- The `GoalUpdate` patch schema from `models/goal.py`: every field optional,
    `none` meaning "not provided" (pydantic gives omitted fields the value
    `None`, so omitted and explicit-null patches are the same object). -/
structure GoalUpdate where
  title : Option String := none
  description : Option String := none
  status : Option String := none
  target_date : Option Int := none
  is_public : Option Bool := none
  scope : Option String := none
  parent_goal_id : Option Nat := none
  display_order : Option Nat := none
deriving DecidableEq, Repr

/-- A row of the `teams` table (`Team` model in `models/team.py`). -/
structure TeamRec where
  id : Nat
  name : String
  description : Option String
  color_theme : String
  parent_team_id : Option Nat
  created_by : String
  nesting_level : Nat
  created_at : Int
  updated_at : Int
deriving DecidableEq, Repr

/-- The `TeamCreate` request body from `models/team.py`. -/
structure TeamCreate where
  name : String
  description : Option String := none
  color_theme : String := "#3B82F6"
  parent_team_id : Option Nat := none
deriving DecidableEq, Repr

/-- The `TeamUpdate` patch schema from `models/team.py`. -/
structure TeamUpdate where
  name : Option String := none
  description : Option String := none
  color_theme : Option String := none
deriving DecidableEq, Repr

/-- A row of the `team_members` table (`TeamMember` model). -/
structure TeamMemberRec where
  id : Nat
  team_id : Nat
  user_id : String
  role : TeamRole
  invited_by : Option String
  joined_at : Int
deriving DecidableEq, Repr

/-- A row of the `team_invitations` table (`TeamInvitation` model). -/
structure InvitationRec where
  id : Nat
  team_id : Nat
  email : String
  invite_code : String
  invited_by : String
  status : InvStatus
  created_at : Int
  expires_at : Int
deriving DecidableEq, Repr

/-- A row of the `goal_files` table (`GoalFile` model in `models/goal_file.py`). -/
structure GoalFileRec where
  id : Nat
  goal_id : Nat
  file_name : String
  file_path : String
  file_size : Nat
  mime_type : Option String
  uploaded_by : String
  uploaded_at : Int
deriving DecidableEq, Repr

/-- A row of the `goal_teams` join table. -/
structure GoalTeamRec where
  goal_id : Nat
  team_id : Nat
  assigned_by : String
deriving DecidableEq, Repr

/-- A row of the `goal_categories` join table. -/
structure GoalCategoryRec where
  goal_id : Nat
  category_id : Nat
deriving DecidableEq, Repr

/-- A row of the `categories` table (fields selected by the goal queries). -/
structure CategoryRec where
  id : Nat
  name : String
  color : String
  icon : String
  user_id : String
deriving DecidableEq, Repr

/-- The nested `teams(id, name, color_theme)` object selected through
    `goal_teams` by the goal read queries. -/
structure TeamInfo where
  id : Nat
  name : String
  color_theme : String
deriving DecidableEq, Repr

/-- The nested `categories(id, name, color, icon)` object selected through
    `goal_categories` by the goal read queries. -/
structure CatInfo where
  id : Nat
  name : String
  color : String
  icon : String
deriving DecidableEq, Repr

/-- The whole backing store: one list per table touched by the verified
    handlers. -/
structure DB where
  goals : List GoalRec := []
  teams : List TeamRec := []
  team_members : List TeamMemberRec := []
  team_invitations : List InvitationRec := []
  goal_files : List GoalFileRec := []
  goal_teams : List GoalTeamRec := []
  goal_categories : List GoalCategoryRec := []
  categories : List CategoryRec := []
deriving DecidableEq, Repr

/-- Fresh primary key for an insert: one more than the largest id in use. -/
def freshId (ids : List Nat) : Nat :=
  (ids.foldr max 0) + 1

/-- An HTTP outcome: either an error status code with detail, or a payload. -/
abbrev HttpResult (α : Type) := Except (Nat × String) α

namespace GoalModel

/-- `Goal.get_by_id` (`models/goal.py`): select from `goals` filtered by
    `id` and `user_id`, returning the first row if any. -/
def get_by_id (db : DB) (goal_id : Nat) (user_id : String) : Option GoalRec :=
  (db.goals.filter (fun r => r.id = goal_id ∧ r.user_id = user_id)).head?

/-- Whether the patch contributes at least one key to `update_dict` in
    `Goal.update` (`models/goal.py`): each field is added iff it `is not None`. -/
def hasSetField (u : GoalUpdate) : Bool :=
  u.title.isSome || u.description.isSome || u.status.isSome ||
  u.target_date.isSome || u.is_public.isSome || u.scope.isSome ||
  u.parent_goal_id.isSome || u.display_order.isSome

/-- The effect of applying the `update_dict` built by `Goal.update` to one
    stored row: exactly the non-`None` patch fields overwrite the row. -/
def applyGoalUpdate (u : GoalUpdate) (r : GoalRec) : GoalRec :=
  { r with
    title := u.title.getD r.title
    description := match u.description with | some d => some d | none => r.description
    status := u.status.getD r.status
    target_date := match u.target_date with | some d => some d | none => r.target_date
    is_public := u.is_public.getD r.is_public
    scope := u.scope.getD r.scope
    parent_goal_id := match u.parent_goal_id with | some p => some p | none => r.parent_goal_id
    display_order := u.display_order.getD r.display_order }

/-- `Goal.update` (`models/goal.py`): build `update_dict` from the non-null
    patch fields; if it is empty return `self` without touching the store,
    otherwise update the rows matching `id` and `user_id` and return the
    first updated row. -/
def update (db : DB) (g : GoalRec) (u : GoalUpdate) (user_id : String) :
    Option GoalRec × DB :=
  if hasSetField u then
    let updatedRows :=
      (db.goals.filter (fun r => r.id = g.id ∧ r.user_id = user_id)).map
        (applyGoalUpdate u)
    let newGoals :=
      db.goals.map (fun r =>
        if r.id = g.id ∧ r.user_id = user_id then applyGoalUpdate u r else r)
    (updatedRows.head?, { db with goals := newGoals })
  else
    (some g, db)

/-- `Goal.delete` (`models/goal.py`): delete rows matching `id` and `user_id`. -/
def delete (db : DB) (g : GoalRec) (user_id : String) : DB :=
  { db with
    goals := db.goals.filter (fun r => ¬(r.id = g.id ∧ r.user_id = user_id)) }

end GoalModel

/-- The `teams(id, name, color_theme)` objects joined to a goal through
    `goal_teams`, flattened as the routers do (join rows whose nested team
    object is missing are skipped). -/
def teamsOfGoal (db : DB) (goal_id : Nat) : List TeamInfo :=
  (db.goal_teams.filter (fun gt => gt.goal_id = goal_id)).filterMap
    (fun gt =>
      (db.teams.find? (fun t => t.id = gt.team_id)).map
        (fun t => ⟨t.id, t.name, t.color_theme⟩))

/-- The `categories(id, name, color, icon)` objects joined to a goal through
    `goal_categories`, flattened as the routers do. -/
def categoriesOfGoal (db : DB) (goal_id : Nat) : List CatInfo :=
  (db.goal_categories.filter (fun gc => gc.goal_id = goal_id)).filterMap
    (fun gc =>
      (db.categories.find? (fun c => c.id = gc.category_id)).map
        (fun c => ⟨c.id, c.name, c.color, c.icon⟩))

/-- A goal payload as returned by the goal read endpoints: the table row plus
    the flattened `teams` and `categories` lists. -/
structure GoalFull where
  goal : GoalRec
  teams : List TeamInfo
  categories : List CatInfo
deriving DecidableEq, Repr

namespace GoalsRouter

/-- `GET /api/goals/{goal_id}` (`read_goal` in `routers/goals.py`): 404 when
    `Goal.get_by_id` finds nothing. -/
def read_goal (db : DB) (goal_id : Nat) (user_id : String) :
    HttpResult GoalRec :=
  match GoalModel.get_by_id db goal_id user_id with
  | none => .error (404, "Goal not found")
  | some g => .ok g

/-- `PUT /api/goals/{goal_id}` (`update_goal` in `routers/goals.py`):
    fetch, update via `Goal.update`, then re-fetch the row with its team and
    category joins and return the flattened payload. -/
def update_goal (db : DB) (goal_id : Nat) (u : GoalUpdate) (user_id : String) :
    HttpResult GoalFull × DB :=
  match GoalModel.get_by_id db goal_id user_id with
  | none => (.error (404, "Goal not found"), db)
  | some g =>
    match GoalModel.update db g u user_id with
    | (none, db1) => (.error (500, "Failed to update goal"), db1)
    | (some updated, db1) =>
      match (db1.goals.filter
          (fun r => r.id = goal_id ∧ r.user_id = user_id)).head? with
      | none => (.ok ⟨updated, [], []⟩, db1)
      | some row =>
        (.ok ⟨row, teamsOfGoal db1 goal_id, categoriesOfGoal db1 goal_id⟩, db1)

/-- `DELETE /api/goals/{goal_id}` (`delete_goal` in `routers/goals.py`). -/
def delete_goal (db : DB) (goal_id : Nat) (user_id : String) :
    HttpResult Unit × DB :=
  match GoalModel.get_by_id db goal_id user_id with
  | none => (.error (404, "Goal not found"), db)
  | some g => (.ok (), GoalModel.delete db g user_id)

end GoalsRouter

namespace TeamModel

/-- `Team.get_by_id` (`models/team.py`): first check that the caller has a
    `team_members` row for the team; only then fetch the team row. -/
def get_by_id (db : DB) (team_id : Nat) (user_id : String) : Option TeamRec :=
  if (db.team_members.filter
      (fun m => m.team_id = team_id ∧ m.user_id = user_id)).isEmpty then
    none
  else
    (db.teams.filter (fun t => t.id = team_id)).head?

/-- `Team.is_user_owner` (`models/team.py`): a `team_members` row with this
    team, this user and role `owner` exists. -/
def is_user_owner (db : DB) (team_id : Nat) (user_id : String) : Bool :=
  !(db.team_members.filter
      (fun m => m.team_id = team_id ∧ m.user_id = user_id ∧ m.role = TeamRole.owner)).isEmpty

/-- Whether the patch contributes at least one key to `update_dict` in
    `Team.update`. -/
def hasSetField (u : TeamUpdate) : Bool :=
  u.name.isSome || u.description.isSome || u.color_theme.isSome

/-- The effect of the `update_dict` built by `Team.update` on one stored row. -/
def applyTeamUpdate (u : TeamUpdate) (t : TeamRec) : TeamRec :=
  { t with
    name := u.name.getD t.name
    description := match u.description with | some d => some d | none => t.description
    color_theme := u.color_theme.getD t.color_theme }

/-- `Team.update` (`models/team.py`): empty patch returns `self` untouched;
    otherwise the caller must be an owner (else `None`), and the rows with
    this team id are updated (the query filters on `id` only). -/
def update (db : DB) (t : TeamRec) (u : TeamUpdate) (user_id : String) :
    Option TeamRec × DB :=
  if hasSetField u then
    if is_user_owner db t.id user_id then
      let updatedRows :=
        (db.teams.filter (fun r => r.id = t.id)).map (applyTeamUpdate u)
      let newTeams :=
        db.teams.map (fun r => if r.id = t.id then applyTeamUpdate u r else r)
      (updatedRows.head?, { db with teams := newTeams })
    else
      (none, db)
  else
    (some t, db)

/-- `TeamCreate.save` (`models/team.py`) together with the database-side
    defaulting of the inserted row.

    Modelled from the spec: the SQL that fills in `nesting_level` on insert
    (a trigger or column default in the teams migration) is not under `src/`;
    per the spec, "creating a child produces child nesting_level = parent+1"
    and 0 is the root level, so the inserted row gets `nesting_level`
    `parent.nesting_level + 1` when `parent_team_id` names an existing team
    and `0` otherwise. -/
def save (db : DB) (td : TeamCreate) (user_id : String) (now : Int) :
    TeamRec × DB :=
  let lvl : Nat :=
    match td.parent_team_id with
    | none => 0
    | some pid =>
      match db.teams.find? (fun t => t.id = pid) with
      | some p => p.nesting_level + 1
      | none => 0
  let t : TeamRec :=
    { id := freshId (db.teams.map (fun t => t.id))
      name := td.name
      description := td.description
      color_theme := td.color_theme
      parent_team_id := td.parent_team_id
      created_by := user_id
      nesting_level := lvl
      created_at := now
      updated_at := now }
  (t, { db with teams := db.teams ++ [t] })

end TeamModel

/-- Python's `in` on strings: substring containment. -/
def strContainsSub (hay needle : String) : Bool :=
  decide (needle.data <:+: hay.data)

/-- `str(e)` for a Starlette `HTTPException`: `"{status_code}: {detail}"`. -/
def httpExcStr (code : Nat) (detail : String) : String :=
  toString code ++ ": " ++ detail

namespace TeamsRouter

/-- The `try` body of `create_team` (`routers/teams.py`): when
    `parent_team_id` is set, the parent must be fetchable by the caller
    (member) else an `HTTPException(404)` is raised, and its `nesting_level`
    must be below 2 else an `HTTPException(400)` capacity error; then the
    team row is inserted.  The raised exceptions are returned as error
    values, to be caught by the wrapper below. -/
def create_team_body (db : DB) (td : TeamCreate) (user_id : String)
    (now : Int) : HttpResult TeamRec × DB :=
  match td.parent_team_id with
  | some pid =>
    match TeamModel.get_by_id db pid user_id with
    | none => (.error (404, "Parent team not found or you are not a member"), db)
    | some parent =>
      if parent.nesting_level ≥ 2 then
        (.error (400, "Maximum team nesting depth (3 levels) would be exceeded"), db)
      else
        let (t, db1) := TeamModel.save db td user_id now
        (.ok t, db1)
  | none =>
    let (t, db1) := TeamModel.save db td user_id now
    (.ok t, db1)

/-- `POST /api/teams` (`create_team` in `routers/teams.py`): the body runs
    under a bare `except Exception` with no `except HTTPException: raise`
    before it, so the body's own `HTTPException`s are caught too.  An escaped
    exception whose `str(e)` contains `"Maximum team nesting depth"` is
    answered 400 "Maximum team nesting depth (3 levels) exceeded"; anything
    else — including the inner 404 for a missing or non-member parent — is
    answered 500 `"Failed to create team: {str(e)}"`. -/
def create_team (db : DB) (td : TeamCreate) (user_id : String) (now : Int) :
    HttpResult TeamRec × DB :=
  match create_team_body db td user_id now with
  | (.ok t, db1) => (.ok t, db1)
  | (.error (code, detail), db1) =>
    if strContainsSub (httpExcStr code detail) "Maximum team nesting depth" then
      (.error (400, "Maximum team nesting depth (3 levels) exceeded"), db1)
    else
      (.error (500, "Failed to create team: " ++ httpExcStr code detail), db1)

end TeamsRouter

/-- `TeamInvitation.accept` / `TeamInvitation.decline` (`models/team.py`):
    update the status of the `team_invitations` rows matching the id. -/
def updateInvitationStatus (db : DB) (inv_id : Nat) (s : InvStatus) : DB :=
  { db with
    team_invitations :=
      db.team_invitations.map (fun i =>
        if i.id = inv_id then { i with status := s } else i) }

/-- `TeamInvitation.get_by_code` (`models/team.py`): first row of
    `team_invitations` with this invite code. -/
def invitationByCode (db : DB) (code : String) : Option InvitationRec :=
  (db.team_invitations.filter (fun i => i.invite_code = code)).head?

/-- The `unique_team_membership` constraint on `team_members`: a row with the
    same `(team_id, user_id)` pair already exists, so an insert raises. -/
def memberExists (db : DB) (team_id : Nat) (user_id : String) : Bool :=
  !(db.team_members.filter
      (fun m => m.team_id = team_id ∧ m.user_id = user_id)).isEmpty

/-- `TeamMemberCreate.save` (`models/team.py`) for an insert that does not
    violate the uniqueness constraint. -/
def insertTeamMember (db : DB) (team_id : Nat) (user_id : String)
    (invited_by : String) (now : Int) : TeamMemberRec × DB :=
  let m : TeamMemberRec :=
    { id := freshId (db.team_members.map (fun m => m.id))
      team_id := team_id
      user_id := user_id
      role := TeamRole.member
      invited_by := some invited_by
      joined_at := now }
  (m, { db with team_members := db.team_members ++ [m] })

/-- Python's `str.lower()` as used for the email comparison: lower-case the
    characters one by one. -/
def lowerStr (s : String) : String :=
  String.mk (s.data.map Char.toLower)

namespace TeamsRouter

/-- The body of `accept_invitation` once the pending invitation has been
    fetched: require a case-insensitive email match (403), then on expiry
    call `invitation.decline` and answer 400; otherwise insert the member (a
    duplicate marks the invitation accepted and answers 400) and mark the
    invitation accepted. -/
def acceptFound (db : DB) (inv : InvitationRec) (user_id user_email : String)
    (now : Int) : HttpResult TeamMemberRec × DB :=
  if lowerStr inv.email ≠ lowerStr user_email then
    (.error (403, "This invitation is for another email"), db)
  else if inv.expires_at < now then
    (.error (400, "Invitation has expired"),
      updateInvitationStatus db inv.id InvStatus.declined)
  else if memberExists db inv.team_id user_id then
    (.error (400, "You are already a member of this team"),
      updateInvitationStatus db inv.id InvStatus.accepted)
  else
    let (m, db1) := insertTeamMember db inv.team_id user_id inv.invited_by now
    (.ok m, updateInvitationStatus db1 inv.id InvStatus.accepted)

/-- `POST /api/invitations/{invitation_id}/accept` (`accept_invitation` in
    `routers/teams.py`): fetch the invitation filtered to status `pending`
    (404 otherwise), then proceed as in `acceptFound`. -/
def accept_invitation (db : DB) (invitation_id : Nat)
    (user_id user_email : String) (now : Int) :
    HttpResult TeamMemberRec × DB :=
  match (db.team_invitations.filter
      (fun i => i.id = invitation_id ∧ i.status = InvStatus.pending)).head? with
  | none => (.error (404, "Invitation not found or already processed"), db)
  | some inv => acceptFound db inv user_id user_email now

/-- `POST /api/invitations/{invitation_id}/decline` (`decline_invitation` in
    `routers/teams.py`): the caller's email is read from the auth session
    (`none` when unavailable, answered 400); the invitation is fetched
    filtered by id, exact email and status `pending` (404 otherwise) and
    marked declined. -/
def declineWithEmail (db : DB) (invitation_id : Nat) (email : String) :
    HttpResult Unit × DB :=
  match (db.team_invitations.filter
      (fun i => i.id = invitation_id ∧ i.email = email ∧
        i.status = InvStatus.pending)).head? with
  | none => (.error (404, "Invitation not found or already processed"), db)
  | some inv =>
    (.ok (), updateInvitationStatus db inv.id InvStatus.declined)

/-- `POST /api/invitations/{invitation_id}/decline`, outer step: 400 when the
    auth session yields no email, else `declineWithEmail`. -/
def decline_invitation (db : DB) (invitation_id : Nat)
    (user_email : Option String) : HttpResult Unit × DB :=
  match user_email with
  | none => (.error (400, "Could not verify user email"), db)
  | some email => declineWithEmail db invitation_id email

/-- `GET /api/invite/{invite_code}` (`get_invitation_by_code` in
    `routers/teams.py`): 404 when no such code, 400 when not pending, 400
    when expired, otherwise the invitation; the store is never written. -/
def getByCodeFound (db : DB) (inv : InvitationRec) (now : Int) :
    HttpResult InvitationRec × DB :=
  if inv.status ≠ InvStatus.pending then
    (.error (400, "Invitation has already been processed"), db)
  else if inv.expires_at < now then
    (.error (400, "Invitation has expired"), db)
  else
    (.ok inv, db)

/-- `GET /api/invite/{invite_code}`, outer step: 404 when no such code, then
    as in `getByCodeFound`. -/
def get_invitation_by_code (db : DB) (invite_code : String) (now : Int) :
    HttpResult InvitationRec × DB :=
  match invitationByCode db invite_code with
  | none => (.error (404, "Invitation not found"), db)
  | some inv => getByCodeFound db inv now

/-- The body of `join_via_invite_code` once the invitation has been fetched
    by code: 400 when not pending or expired (without writing), else insert
    the member (a duplicate answers 400 without touching the invitation) and
    mark the invitation accepted. -/
def joinFound (db : DB) (inv : InvitationRec) (user_id : String) (now : Int) :
    HttpResult TeamMemberRec × DB :=
  if inv.status ≠ InvStatus.pending then
    (.error (400, "Invitation has already been processed"), db)
  else if inv.expires_at < now then
    (.error (400, "Invitation has expired"), db)
  else if memberExists db inv.team_id user_id then
    (.error (400, "You are already a member of this team"), db)
  else
    let (m, db1) := insertTeamMember db inv.team_id user_id inv.invited_by now
    (.ok m, updateInvitationStatus db1 inv.id InvStatus.accepted)

/-- `POST /api/invite/{invite_code}/join` (`join_via_invite_code` in
    `routers/teams.py`): 404 when no such code, then as in `joinFound`. -/
def join_via_invite_code (db : DB) (invite_code : String) (user_id : String)
    (now : Int) : HttpResult TeamMemberRec × DB :=
  match invitationByCode db invite_code with
  | none => (.error (404, "Invitation not found"), db)
  | some inv => joinFound db inv user_id now

end TeamsRouter

/-- The membership probe used by `verify_goal_access` (`routers/files.py`):
    `goal_teams` rows for the goal inner-joined with a `team_members` row of
    the caller. -/
def isGoalTeamMember (db : DB) (goal_id : Nat) (user_id : String) : Bool :=
  db.goal_teams.any (fun gt =>
    gt.goal_id = goal_id ∧
      db.team_members.any (fun m =>
        m.team_id = gt.team_id ∧ m.user_id = user_id))

namespace FilesRouter

/-- `verify_goal_access` (`routers/files.py`): the goal row is fetched by id
    alone (404 when absent); the owner passes; for write access a team
    membership is required (403 otherwise); for read access a public flag or
    a team membership is required (403 otherwise). -/
def verify_goal_access (db : DB) (goal_id : Nat) (user_id : String)
    (require_write : Bool) : HttpResult GoalRec :=
  match (db.goals.filter (fun r => r.id = goal_id)).head? with
  | none => .error (404, "Goal not found")
  | some goal =>
    if goal.user_id = user_id then
      .ok goal
    else if require_write then
      if isGoalTeamMember db goal_id user_id then
        .ok goal
      else
        .error (403, "You don't have permission to upload files to this goal")
    else if goal.is_public then
      .ok goal
    else if isGoalTeamMember db goal_id user_id then
      .ok goal
    else
      .error (403, "You don't have access to this goal")

/-- `GET /api/goals/{goal_id}/files` (`list_goal_files` in
    `routers/files.py`): read access check, then the goal's file rows ordered
    by `uploaded_at` descending. -/
def list_goal_files (db : DB) (goal_id : Nat) (user_id : String) :
    HttpResult (List GoalFileRec) :=
  match verify_goal_access db goal_id user_id false with
  | .error e => .error e
  | .ok _ =>
    .ok ((db.goal_files.filter (fun f => f.goal_id = goal_id)).insertionSort
      (fun a b => b.uploaded_at ≤ a.uploaded_at))

/-- `POST /api/goals/{goal_id}/files` (`upload_goal_file` in
    `routers/files.py`): write access check; at 10 or more stored files a 400
    capacity error; above 10485760 bytes a 413; otherwise the blob is stored
    under a fresh path (the random path is a parameter here) and the metadata
    row is inserted. -/
def uploadedFileRec (db : DB) (goal_id : Nat) (file_name : String)
    (file_size : Nat) (mime_type : Option String) (user_id : String)
    (unique_path : String) (now : Int) : GoalFileRec :=
  { id := freshId (db.goal_files.map (fun f => f.id))
    goal_id := goal_id
    file_name := file_name
    file_path := unique_path
    file_size := file_size
    mime_type := mime_type
    uploaded_by := user_id
    uploaded_at := now }

/-- The body of `upload_goal_file` once write access is verified: at 10 or
    more stored files a 400 capacity error; above 10485760 bytes a 413;
    otherwise the metadata row is inserted. -/
def uploadChecked (db : DB) (goal_id : Nat) (file_name : String)
    (file_size : Nat) (mime_type : Option String) (user_id : String)
    (unique_path : String) (now : Int) : HttpResult GoalFileRec × DB :=
  if (db.goal_files.filter (fun f => f.goal_id = goal_id)).length ≥ 10 then
    (.error (400, "Maximum of 10 files per goal exceeded"), db)
  else if file_size > 10485760 then
    (.error (413, "File size exceeds 10MB limit"), db)
  else
    (.ok (uploadedFileRec db goal_id file_name file_size mime_type user_id
        unique_path now),
      { db with goal_files := db.goal_files ++
          [uploadedFileRec db goal_id file_name file_size mime_type user_id
            unique_path now] })

/-- `POST /api/goals/{goal_id}/files` (`upload_goal_file` in
    `routers/files.py`): write access check, then as in `uploadChecked`
    (the random blob path is a parameter here). -/
def upload_goal_file (db : DB) (goal_id : Nat) (file_name : String)
    (file_size : Nat) (mime_type : Option String) (user_id : String)
    (unique_path : String) (now : Int) : HttpResult GoalFileRec × DB :=
  match verify_goal_access db goal_id user_id true with
  | .error e => (.error e, db)
  | .ok _ => uploadChecked db goal_id file_name file_size mime_type user_id
      unique_path now

/-- `GET /api/goals/{goal_id}/files/{file_id}/download`
    (`get_file_download_url` in `routers/files.py`): read access check, then
    the file row by id and goal id (404 when absent); no write occurs. -/
def get_file_download_url (db : DB) (goal_id file_id : Nat)
    (user_id : String) : HttpResult GoalFileRec :=
  match verify_goal_access db goal_id user_id false with
  | .error e => .error e
  | .ok _ =>
    match (db.goal_files.filter
        (fun f => f.id = file_id ∧ f.goal_id = goal_id)).head? with
    | none => .error (404, "File not found")
    | some f => .ok f

end FilesRouter

/-- JWT claim set relevant to the backend (`sub`, `email`). -/
structure Claims where
  sub : String
  email : String
deriving DecidableEq, Repr

/-- The environment configuration read by `auth.py`. -/
structure AuthSettings where
  SUPABASE_JWKS_URL : Option String
  SUPABASE_JWT_SECRET : Option String
deriving DecidableEq, Repr

/-- Outcome of the PyJWT decode call for the presented token under the
    configured key: success, expired signature, invalid token/signature, or
    some other library failure. -/
inductive PyJwtOutcome
  | ok
  | expiredSignature
  | invalidToken
  | otherError
deriving DecidableEq, Repr

/-- A Python exception escaping the `try` body of `verify_jwt_token`. -/
inductive PyExc
  | expiredSignature
  | invalidToken
  | httpException (code : Nat) (detail : String)
  | other
deriving DecidableEq, Repr

namespace Auth

/-- The `try` body of `verify_jwt_token` (`auth.py`): decode with JWKS when a
    JWKS URL is configured, else with the shared secret when configured, else
    raise an `HTTPException(500)` — which, being raised inside the `try`,
    escapes as an exception into the handlers below. -/
def verifyBody (settings : AuthSettings) (decode : PyJwtOutcome)
    (payload : Claims) : Except PyExc Claims :=
  if settings.SUPABASE_JWKS_URL.isSome then
    match decode with
    | .ok => .ok payload
    | .expiredSignature => .error .expiredSignature
    | .invalidToken => .error .invalidToken
    | .otherError => .error .other
  else if settings.SUPABASE_JWT_SECRET.isSome then
    match decode with
    | .ok => .ok payload
    | .expiredSignature => .error .expiredSignature
    | .invalidToken => .error .invalidToken
    | .otherError => .error .other
  else
    .error (.httpException 500
      "JWT verification not configured. Set SUPABASE_JWKS_URL or SUPABASE_JWT_SECRET.")

/-- `verify_jwt_token` (`auth.py`): the body runs under three `except`
    clauses tried in order — `ExpiredSignatureError` answers 401,
    `InvalidTokenError` answers 401, and the final bare `Exception` clause
    (which also catches the `HTTPException` raised for missing configuration)
    answers 401. -/
def verify_jwt_token (settings : AuthSettings) (decode : PyJwtOutcome)
    (payload : Claims) : HttpResult Claims :=
  match verifyBody settings decode payload with
  | .ok p => .ok p
  | .error .expiredSignature => .error (401, "Token has expired")
  | .error .invalidToken => .error (401, "Invalid authentication token")
  | .error _ => .error (401, "Could not validate credentials")

end Auth

/-- The `GoalUpdate` schema of the legacy `models.py`, used by `crud.py`. -/
structure CrudGoalUpdate where
  title : Option String := none
  description : Option String := none
  status : Option String := none
  target_date : Option Int := none
deriving DecidableEq, Repr

namespace Crud

/-- `get_goal` (`crud.py`): first `goals` row with this id (no owner filter). -/
def get_goal (db : DB) (goal_id : Nat) : Option GoalRec :=
  (db.goals.filter (fun r => r.id = goal_id)).head?

/-- Whether the patch contributes at least one key to `update_data` in
    `update_goal` (`crud.py`). -/
def hasSetField (u : CrudGoalUpdate) : Bool :=
  u.title.isSome || u.description.isSome || u.status.isSome || u.target_date.isSome

/-- The effect of the `update_data` dict built by `update_goal` on one row. -/
def applyCrudGoalUpdate (u : CrudGoalUpdate) (r : GoalRec) : GoalRec :=
  { r with
    title := u.title.getD r.title
    description := match u.description with | some d => some d | none => r.description
    status := u.status.getD r.status
    target_date := match u.target_date with | some d => some d | none => r.target_date }

/-- `update_goal` (`crud.py`): with an empty patch, return the stored goal
    without writing; otherwise update the rows with this id. -/
def update_goal (db : DB) (goal_id : Nat) (u : CrudGoalUpdate) :
    Option GoalRec × DB :=
  if hasSetField u then
    let updatedRows :=
      (db.goals.filter (fun r => r.id = goal_id)).map (applyCrudGoalUpdate u)
    let newGoals :=
      db.goals.map (fun r =>
        if r.id = goal_id then applyCrudGoalUpdate u r else r)
    (updatedRows.head?, { db with goals := newGoals })
  else
    (get_goal db goal_id, db)

end Crud

/-- The ordering relation PostgreSQL applies to a nullable sort key under the
    `desc`/`nullsfirst` parameters that `Goal.get_all` passes to
    `query.order`: `a` may come before `b`. -/
def pgNullsOrder (desc nullsfirst : Bool) : Option Int → Option Int → Prop
  | none, none => True
  | none, some _ => nullsfirst = true
  | some _, none => nullsfirst = false
  | some x, some y => if desc then y ≤ x else x ≤ y

instance (desc nullsfirst : Bool) : DecidableRel (pgNullsOrder desc nullsfirst) := by
  intro a b
  cases a <;> cases b <;> simp [pgNullsOrder] <;> infer_instance

/-- Case-insensitive `ILIKE %s%` containment of `needle` in `hay`. -/
def ilikeContains (hay needle : String) : Bool :=
  decide (needle.toLower.toList <:+: hay.toLower.toList)

/-- The `or_` search filter in `Goal.get_all`: case-insensitive substring
    match against title or description (a null description never matches). -/
def matchesSearch (search : Option String) (r : GoalRec) : Bool :=
  match search with
  | none => true
  | some s =>
    if s.isEmpty then true
    else
      ilikeContains r.title s ||
        (match r.description with
         | some d => ilikeContains d s
         | none => false)

/-- The `in_("status", status)` filter (skipped for a missing/empty list). -/
def matchesStatus (status : Option (List String)) (r : GoalRec) : Bool :=
  match status with
  | none => true
  | some l => if l.isEmpty then true else l.contains r.status

/-- The `gte`/`lte` filters on `target_date`: SQL comparison against a null
    column is not true, so rows without a target date are dropped whenever a
    bound is given. -/
def matchesDateRange (tdFrom tdTo : Option Int) (r : GoalRec) : Bool :=
  (match tdFrom with
   | none => true
   | some lo => match r.target_date with
     | none => false
     | some d => lo ≤ d) &&
  (match tdTo with
   | none => true
   | some hi => match r.target_date with
     | none => false
     | some d => d ≤ hi)

/-- The ordering that `Goal.get_all` requests from the store: for
    `target_date` the code passes `nullsfirst=True` when ascending and
    `nullsfirst=False` when descending; any other column is ordered by its
    own value. -/
def orderGoals (sort_by sort_order : String) (l : List GoalRec) :
    List GoalRec :=
  if sort_by = "target_date" then
    if sort_order = "asc" then
      l.insertionSort (fun a b => pgNullsOrder false true a.target_date b.target_date)
    else
      l.insertionSort (fun a b => pgNullsOrder true false a.target_date b.target_date)
  else if sort_by = "created_at" then
    l.insertionSort (fun a b =>
      if sort_order = "desc" then b.created_at ≤ a.created_at
      else a.created_at ≤ b.created_at)
  else if sort_by = "title" then
    l.insertionSort (fun a b =>
      if sort_order = "desc" then b.title ≤ a.title else a.title ≤ b.title)
  else
    l.insertionSort (fun a b =>
      if sort_order = "desc" then b.status ≤ a.status else a.status ≤ b.status)

/-- `Goal.get_all` (`models/goal.py`): owner filter plus the optional search,
    status and date filters, the requested ordering, the join flattening into
    `teams`/`categories` lists, and finally the post-query category filter. -/
def Goal.get_all (db : DB) (user_id : String) (search : Option String)
    (status : Option (List String)) (category_ids : Option (List Nat))
    (target_date_from target_date_to : Option Int)
    (sort_by sort_order : String) : List GoalFull :=
  let rows := db.goals.filter (fun r =>
    r.user_id = user_id ∧ matchesSearch search r = true ∧
      matchesStatus status r = true ∧
      matchesDateRange target_date_from target_date_to r = true)
  let sorted := orderGoals sort_by sort_order rows
  let full := sorted.map (fun r => GoalFull.mk r (teamsOfGoal db r.id) (categoriesOfGoal db r.id))
  match category_ids with
  | none => full
  | some cids =>
    if cids.isEmpty then full
    else full.filter (fun g => g.categories.any (fun c => cids.contains c.id))

/-- One request against the invitation endpoints, used to quantify over all
    four operations at once. -/
inductive InvOp
  | accept (invitation_id : Nat) (user_id user_email : String) (now : Int)
  | decline (invitation_id : Nat) (user_email : Option String)
  | getByCode (invite_code : String) (now : Int)
  | joinByCode (invite_code : String) (user_id : String) (now : Int)
deriving DecidableEq, Repr

/-- The database state after running one invitation operation. -/
def invOpDB (db : DB) : InvOp → DB
  | .accept invitation_id user_id user_email now =>
    (TeamsRouter.accept_invitation db invitation_id user_id user_email now).2
  | .decline invitation_id user_email =>
    (TeamsRouter.decline_invitation db invitation_id user_email).2
  | .getByCode invite_code now =>
    (TeamsRouter.get_invitation_by_code db invite_code now).2
  | .joinByCode invite_code user_id now =>
    (TeamsRouter.join_via_invite_code db invite_code user_id now).2

section ListFacts

variable {α : Type}

/-- The head of a list is a member. -/
theorem mem_of_head_eq_some {l : List α} {a : α} (h : l.head? = some a) :
    a ∈ l := by
  cases l with
  | nil => cases h
  | cons b t =>
    have hba : b = a := by simpa using h
    rw [← hba]
    exact List.mem_cons_self b t

/-- When the only element of `l` satisfying `p` is `a`, the first match of a
    row-filtering query is `a`. -/
theorem head_filter_eq_some {l : List α} {p : α → Bool} {a : α}
    (ha : a ∈ l) (hpa : p a = true) (hall : ∀ x ∈ l, p x = true → x = a) :
    (l.filter p).head? = some a := by
  have hmem : a ∈ l.filter p := List.mem_filter.mpr ⟨ha, hpa⟩
  cases hlf : l.filter p with
  | nil => rw [hlf] at hmem; cases hmem
  | cons b t =>
    have hb : b ∈ l.filter p := by
      rw [hlf]
      exact List.mem_cons_self b t
    have hb' := List.mem_filter.mp hb
    rw [hall b hb'.1 hb'.2]
    rfl

/-- When no element of `l` satisfies `p`, a row-filtering query is empty. -/
theorem head_filter_eq_none {l : List α} {p : α → Bool}
    (hall : ∀ x ∈ l, p x = false) : (l.filter p).head? = none := by
  have : l.filter p = [] := by
    apply List.filter_eq_nil_iff.mpr
    intro x hx
    simp [hall x hx]
  rw [this]
  rfl

/-- When the only element of `l` satisfying `p` is `a`, `find?` returns `a`. -/
theorem find_eq_some {l : List α} {p : α → Bool} {a : α}
    (ha : a ∈ l) (hpa : p a = true) (hall : ∀ x ∈ l, p x = true → x = a) :
    l.find? p = some a := by
  induction l with
  | nil => cases ha
  | cons b t ih =>
    by_cases hb : p b = true
    · rw [List.find?_cons_of_pos _ hb, hall b (List.mem_cons_self b t) hb]
    · have hab : a ≠ b := fun h => hb (h ▸ hpa)
      have hat : a ∈ t := by
        rcases List.mem_cons.mp ha with h | h
        · exact absurd h hab
        · exact h
      rw [List.find?_cons_of_neg _ hb]
      exact ih hat fun x hx hpx => hall x (List.mem_cons_of_mem b hx) hpx

end ListFacts

/-- A goal record that serves as shared concrete test data: id 1, owned by
    user `"A"`, private, with a description and a target date. -/
def gA : GoalRec :=
  { id := 1
    title := "t"
    description := some "d"
    status := "pending"
    target_date := some 7
    is_public := false
    scope := "private"
    parent_goal_id := none
    display_order := 0
    template_id := none
    user_id := "A"
    created_at := 0 }

/-- A one-goal store owned by user `"A"`. -/
def dbA : DB := { goals := [gA] }

/-- C2.
For every existing goal `G` owned by the caller, `PUT /api/goals/{goal_id}`
with a patch in which no field is set returns the current record (with its
flattened team and category lists) with every field unchanged, and the store
is not written: the successor state is the original state. -/
theorem C2_empty_patch_is_noop (db : DB) (g : GoalRec) (uid : String)
    (u : GoalUpdate)
    (hids : (db.goals.map GoalRec.id).Nodup)
    (hg : g ∈ db.goals) (hown : g.user_id = uid)
    (hu : GoalModel.hasSetField u = false) :
    GoalsRouter.update_goal db g.id u uid =
      (.ok ⟨g, teamsOfGoal db g.id, categoriesOfGoal db g.id⟩, db) := by
  have hinj := List.inj_on_of_nodup_map hids
  have hall : ∀ x ∈ db.goals,
      (decide (x.id = g.id ∧ x.user_id = uid)) = true → x = g := by
    intro x hx hpx
    have hpx' := of_decide_eq_true hpx
    exact hinj hx hg hpx'.1
  have hhead : (db.goals.filter
      (fun r => r.id = g.id ∧ r.user_id = uid)).head? = some g := by
    apply head_filter_eq_some hg _ hall
    exact decide_eq_true ⟨rfl, hown⟩
  have hget : GoalModel.get_by_id db g.id uid = some g := by
    unfold GoalModel.get_by_id
    exact hhead
  have hupd : GoalModel.update db g u uid = (some g, db) := by
    unfold GoalModel.update
    rw [hu]
    simp
  simp only [GoalsRouter.update_goal, hget, hupd, hhead]

/-- C2 witness: the empty patch on the one-goal store returns the stored
    record and leaves the store untouched. -/
theorem C2_empty_patch_is_noop_witness :
    GoalsRouter.update_goal dbA 1 {} "A" = (.ok ⟨gA, [], []⟩, dbA) := by
  have h := C2_empty_patch_is_noop dbA gA "A" {} (by decide)
    (by simp [dbA]) (by decide) (by decide)
  simpa [dbA, gA, teamsOfGoal, categoriesOfGoal] using h

/-- C1 counterexample.
The claim says a request from `B ≠ A` addressing `A`'s goal always gets 404
and never 403; but in the store where the private goal 1 belongs to `"A"`,
the per-goal file listing requested by `"B"` answers 403. -/
theorem C1_counterexample_file_endpoint_403 :
    FilesRouter.list_goal_files dbA 1 "B" =
      .error (403, "You don't have access to this goal") := by
  rfl

/-- C1 (amended).
For `GET/PUT/DELETE /api/goals/{id}`, a request from an authenticated user
`B ≠ A` addressing a goal owned by `A` answers 404 and never yields the
resource.  The per-goal file endpoints use a different check: the goal row is
looked up without an owner filter, so when the goal exists but `B` has no
access (not a team member; for reads additionally not public) they answer
403 rather than 404. -/
theorem C1_ownership_opacity (db : DB) (g : GoalRec) (A B : String)
    (u : GoalUpdate)
    (hids : (db.goals.map GoalRec.id).Nodup)
    (hg : g ∈ db.goals) (hown : g.user_id = A) (hAB : B ≠ A) :
    GoalsRouter.read_goal db g.id B = .error (404, "Goal not found") ∧
    GoalsRouter.update_goal db g.id u B = (.error (404, "Goal not found"), db) ∧
    GoalsRouter.delete_goal db g.id B = (.error (404, "Goal not found"), db) ∧
    (g.is_public = false → isGoalTeamMember db g.id B = false →
      FilesRouter.verify_goal_access db g.id B false =
        .error (403, "You don't have access to this goal") ∧
      FilesRouter.list_goal_files db g.id B =
        .error (403, "You don't have access to this goal")) ∧
    (isGoalTeamMember db g.id B = false →
      FilesRouter.verify_goal_access db g.id B true =
        .error (403, "You don't have permission to upload files to this goal")) := by
  have hinj := List.inj_on_of_nodup_map hids
  have hnone : GoalModel.get_by_id db g.id B = none := by
    unfold GoalModel.get_by_id
    apply head_filter_eq_none
    intro x hx
    by_contra hpx
    have hpx' := of_decide_eq_true (Bool.of_not_eq_false hpx)
    have hxg : x = g := hinj hx hg hpx'.1
    exact hAB (by rw [← hpx'.2, hxg, hown])
  have hgB : ¬ (g.user_id = B) := fun h => hAB (by rw [← h, hown])
  have hhead : (db.goals.filter (fun r => r.id = g.id)).head? = some g := by
    apply head_filter_eq_some hg (decide_eq_true rfl)
    intro x hx hpx
    exact hinj hx hg (of_decide_eq_true hpx)
  refine ⟨?_, ?_, ?_, ?_, ?_⟩
  · simp [GoalsRouter.read_goal, hnone]
  · simp [GoalsRouter.update_goal, hnone]
  · simp [GoalsRouter.delete_goal, hnone]
  · intro hpub hmem
    have hv : FilesRouter.verify_goal_access db g.id B false =
        .error (403, "You don't have access to this goal") := by
      simp [FilesRouter.verify_goal_access, hhead, hgB, hpub, hmem]
    exact ⟨hv, by simp [FilesRouter.list_goal_files, hv]⟩
  · intro hmem
    simp [FilesRouter.verify_goal_access, hhead, hgB, hmem]

/-- C1 witness: in the concrete one-goal store, `"B"` gets 404 from the goal
    endpoint and 403 from the file upload access check. -/
theorem C1_ownership_opacity_witness :
    GoalsRouter.read_goal dbA 1 "B" = .error (404, "Goal not found") ∧
    FilesRouter.verify_goal_access dbA 1 "B" true =
      .error (403, "You don't have permission to upload files to this goal") := by
  have h := C1_ownership_opacity dbA gA "A" "B" {} (by decide)
    (by simp [dbA]) (by decide) (by decide)
  exact ⟨h.1, h.2.2.2.2 (by decide)⟩

/-- A team record serving as shared concrete test data. -/
def tA : TeamRec :=
  { id := 1
    name := "team"
    description := some "d"
    color_theme := "#3B82F6"
    parent_team_id := none
    created_by := "A"
    nesting_level := 0
    created_at := 0
    updated_at := 0 }

/-- An owner membership row for user `"A"` in team 1, shared test data. -/
def mA : TeamMemberRec :=
  { id := 1
    team_id := 1
    user_id := "A"
    role := .owner
    invited_by := none
    joined_at := 0 }

/-- A store with the root team `tA` and its owner membership. -/
def dbT : DB := { teams := [tA], team_members := [mA] }

/-- The team `tA` at nesting level 2, and a store holding it. -/
def tC : TeamRec := { tA with nesting_level := 2 }

/-- A store whose only team sits at nesting level 2. -/
def dbT2 : DB := { teams := [tC], team_members := [mA] }

/-- A child-team creation request naming team 1 as parent. -/
def tdChild : TeamCreate := { name := "child", parent_team_id := some 1 }

/-- C3.
Creating a team whose `parent_team_id` references a team the caller is a
member of is rejected with the 400 capacity error (detail "Maximum team
nesting depth (3 levels) exceeded", produced by the router's substring-match
on the escaped inner exception) and inserts nothing when the parent's
`nesting_level` is 2; when it is below 2 the insert succeeds and the
inserted child's `nesting_level` is the parent's plus one. -/
theorem C3_team_nesting (db : DB) (td : TeamCreate) (uid : String) (now : Int)
    (pid : Nat) (parent : TeamRec) (m : TeamMemberRec)
    (hpid : td.parent_team_id = some pid)
    (hids : (db.teams.map TeamRec.id).Nodup)
    (hparent : parent ∈ db.teams) (hparentid : parent.id = pid)
    (hm : m ∈ db.team_members) (hmteam : m.team_id = pid)
    (hmuser : m.user_id = uid) :
    (parent.nesting_level = 2 →
      TeamsRouter.create_team db td uid now =
        (.error (400, "Maximum team nesting depth (3 levels) exceeded"),
          db)) ∧
    (parent.nesting_level < 2 →
      TeamsRouter.create_team db td uid now =
        (.ok (TeamModel.save db td uid now).1,
          { db with teams := db.teams ++ [(TeamModel.save db td uid now).1] }) ∧
      (TeamModel.save db td uid now).1.nesting_level =
        parent.nesting_level + 1) := by
  have hinj := List.inj_on_of_nodup_map hids
  have hmm : m ∈ db.team_members.filter
      (fun mm => mm.team_id = pid ∧ mm.user_id = uid) :=
    List.mem_filter.mpr ⟨hm, decide_eq_true ⟨hmteam, hmuser⟩⟩
  have hne : (db.team_members.filter
      (fun mm => mm.team_id = pid ∧ mm.user_id = uid)).isEmpty = false := by
    cases hl : db.team_members.filter
        (fun mm => mm.team_id = pid ∧ mm.user_id = uid) with
    | nil => rw [hl] at hmm; cases hmm
    | cons a l => rfl
  have hheadteams : (db.teams.filter (fun t => t.id = pid)).head? = some parent := by
    apply head_filter_eq_some hparent (decide_eq_true hparentid)
    intro x hx hpx
    exact hinj hx hparent (by rw [of_decide_eq_true hpx, hparentid])
  have hget : TeamModel.get_by_id db pid uid = some parent := by
    unfold TeamModel.get_by_id
    rw [hne]
    simp [hheadteams]
  have hfind : db.teams.find? (fun t => t.id = pid) = some parent := by
    apply find_eq_some hparent (decide_eq_true hparentid)
    intro x hx hpx
    exact hinj hx hparent (by rw [of_decide_eq_true hpx, hparentid])
  constructor
  · intro h2
    have hge : parent.nesting_level ≥ 2 := by rw [h2]
    have hbody : TeamsRouter.create_team_body db td uid now =
        (.error (400, "Maximum team nesting depth (3 levels) would be exceeded"),
          db) := by
      simp [TeamsRouter.create_team_body, hpid, hget, hge]
    have hsub : strContainsSub
        (httpExcStr 400 "Maximum team nesting depth (3 levels) would be exceeded")
        "Maximum team nesting depth" = true := by decide
    simp [TeamsRouter.create_team, hbody, hsub]
  · intro h2
    have hlt : ¬ (parent.nesting_level ≥ 2) := not_le.mpr h2
    have hbody : TeamsRouter.create_team_body db td uid now =
        (.ok (TeamModel.save db td uid now).1,
          { db with teams := db.teams ++ [(TeamModel.save db td uid now).1] }) := by
      simp [TeamsRouter.create_team_body, hpid, hget, hlt, TeamModel.save]
    constructor
    · simp [TeamsRouter.create_team, hbody]
    · simp [TeamModel.save, hpid, hfind]

/-- C3 witness: under the level-2 parent the creation is refused and the
    store unchanged; under the level-0 parent the child is inserted with
    nesting level 1. -/
theorem C3_team_nesting_witness :
    TeamsRouter.create_team dbT2 tdChild "A" 5 =
      (.error (400, "Maximum team nesting depth (3 levels) exceeded"),
        dbT2) ∧
    TeamsRouter.create_team dbT tdChild "A" 5 =
      (.ok (TeamModel.save dbT tdChild "A" 5).1,
        { dbT with teams := dbT.teams ++ [(TeamModel.save dbT tdChild "A" 5).1] }) ∧
    (TeamModel.save dbT tdChild "A" 5).1.nesting_level = 0 + 1 := by
  have h2 := C3_team_nesting dbT2 tdChild "A" 5 1 tC mA rfl (by decide)
    (by simp [dbT2]) (by decide) (by simp [dbT2]) (by decide) (by decide)
  have h0 := C3_team_nesting dbT tdChild "A" 5 1 tA mA rfl (by decide)
    (by simp [dbT]) (by decide) (by simp [dbT]) (by decide) (by decide)
  exact ⟨h2.1 (by decide), h0.2 (by decide)⟩

/-- C4.
For a stored invitation that is still `pending` but whose `expires_at` lies
before the current time: the invitee's accept answers 400 "Invitation has
expired" (writing only the invitation status, per the expiry branch) and the
join-by-code request answers 400 for any caller without touching the store —
and for every caller email whatsoever, accept never succeeds and never adds
a `team_members` row. -/
theorem C4_expired_invitation_rejected (db : DB) (inv : InvitationRec)
    (uid email : String) (now : Int)
    (hids : (db.team_invitations.map InvitationRec.id).Nodup)
    (hcodes : (db.team_invitations.map InvitationRec.invite_code).Nodup)
    (hinv : inv ∈ db.team_invitations)
    (hpending : inv.status = InvStatus.pending)
    (hexpired : inv.expires_at < now)
    (hemail : lowerStr email = lowerStr inv.email) :
    TeamsRouter.accept_invitation db inv.id uid email now =
      (.error (400, "Invitation has expired"),
        updateInvitationStatus db inv.id InvStatus.declined) ∧
    (TeamsRouter.accept_invitation db inv.id uid email now).2.team_members =
      db.team_members ∧
    TeamsRouter.join_via_invite_code db inv.invite_code uid now =
      (.error (400, "Invitation has expired"), db) ∧
    (∀ e : String,
      (TeamsRouter.accept_invitation db inv.id uid e now).2.team_members =
        db.team_members ∧
      ∀ m, (TeamsRouter.accept_invitation db inv.id uid e now).1 ≠ .ok m) := by
  have hinjid := List.inj_on_of_nodup_map hids
  have hinjcode := List.inj_on_of_nodup_map hcodes
  have haccHead : (db.team_invitations.filter
      (fun i => i.id = inv.id ∧ i.status = InvStatus.pending)).head? = some inv := by
    apply head_filter_eq_some hinv (decide_eq_true ⟨rfl, hpending⟩)
    intro x hx hpx
    exact hinjid hx hinv (of_decide_eq_true hpx).1
  have hjoinHead : invitationByCode db inv.invite_code = some inv := by
    unfold invitationByCode
    apply head_filter_eq_some hinv (decide_eq_true rfl)
    intro x hx hpx
    exact hinjcode hx hinv (of_decide_eq_true hpx)
  have he : lowerStr inv.email = lowerStr email := hemail.symm
  have hacc : TeamsRouter.accept_invitation db inv.id uid email now =
      (.error (400, "Invitation has expired"),
        updateInvitationStatus db inv.id InvStatus.declined) := by
    unfold TeamsRouter.accept_invitation
    rw [haccHead]
    simp [TeamsRouter.acceptFound, he, hexpired]
  refine ⟨hacc, by rw [hacc]; rfl, ?_, ?_⟩
  · unfold TeamsRouter.join_via_invite_code
    rw [hjoinHead]
    simp [TeamsRouter.joinFound, hpending, hexpired]
  · intro e
    by_cases hme : lowerStr inv.email = lowerStr e
    · have hacc' : TeamsRouter.accept_invitation db inv.id uid e now =
          (.error (400, "Invitation has expired"),
            updateInvitationStatus db inv.id InvStatus.declined) := by
        unfold TeamsRouter.accept_invitation
        rw [haccHead]
        simp [TeamsRouter.acceptFound, hme, hexpired]
      rw [hacc']
      exact ⟨rfl, fun m h => by simp at h⟩
    · have hacc' : TeamsRouter.accept_invitation db inv.id uid e now =
          (.error (403, "This invitation is for another email"), db) := by
        unfold TeamsRouter.accept_invitation
        rw [haccHead]
        simp [TeamsRouter.acceptFound, hme]
      rw [hacc']
      exact ⟨rfl, fun m h => by simp at h⟩

/-- A pending invitation already past its expiry, and a store holding it. -/
def invExpired : InvitationRec :=
  { id := 1
    team_id := 1
    email := "e"
    invite_code := "c1"
    invited_by := "A"
    status := .pending
    created_at := 0
    expires_at := 5 }

/-- A store whose only invitation is `invExpired`. -/
def dbI : DB := { team_invitations := [invExpired] }

/-- C4 witness: on the concrete expired pending invitation, accept answers
    400 and the membership table stays empty; join answers 400 untouched. -/
theorem C4_expired_invitation_rejected_witness :
    TeamsRouter.accept_invitation dbI 1 "B" "e" 10 =
      (.error (400, "Invitation has expired"),
        updateInvitationStatus dbI 1 InvStatus.declined) ∧
    TeamsRouter.join_via_invite_code dbI "c1" "B" 10 =
      (.error (400, "Invitation has expired"), dbI) := by
  have h := C4_expired_invitation_rejected dbI invExpired "B" "e" 10
    (by decide) (by decide) (by simp [dbI]) (by decide) (by decide) (by decide)
  exact ⟨h.1, h.2.2.1⟩

/-- C5 (claim contradicted by the code).
The spec says accept/decline on an expired pending invitation transitions the
stored status to `expired`; the code's expiry branch instead calls
`TeamInvitation.decline` (under the comment "Mark as expired"), which writes
`declined` — the value `expired` is never stored.  Evaluated at the failing
input: accepting the expired pending invitation stores `declined`. -/
theorem C5_expired_accept_marks_declined_not_expired :
    (TeamsRouter.accept_invitation dbI 1 "B" "e" 10).2.team_invitations.map
        InvitationRec.status = [InvStatus.declined] ∧
    (TeamsRouter.accept_invitation dbI 1 "B" "e" 10).1 =
      .error (400, "Invitation has expired") ∧
    InvStatus.declined ≠ InvStatus.expired := by
  refine ⟨by decide, rfl, by decide⟩

/-- C6.
An invitation stored in a terminal state (`accepted`, `declined` or
`expired`) is never transitioned by any of the four invitation operations
(accept by id, decline by id, get by invite code, join by invite code): the
identical record is still present afterwards, and the invitations table
keeps its length (no row is added or removed). -/
theorem C6_terminal_invitations_never_transition (db : DB) (op : InvOp)
    (i : InvitationRec)
    (hids : (db.team_invitations.map InvitationRec.id).Nodup)
    (hi : i ∈ db.team_invitations)
    (hterm : i.status ≠ InvStatus.pending) :
    i ∈ (invOpDB db op).team_invitations ∧
    (invOpDB db op).team_invitations.length = db.team_invitations.length := by
  have hinj := List.inj_on_of_nodup_map hids
  have hpres : ∀ (db' : DB) (inv : InvitationRec) (s : InvStatus),
      db'.team_invitations = db.team_invitations →
      inv ∈ db.team_invitations → inv.status = InvStatus.pending →
      i ∈ (updateInvitationStatus db' inv.id s).team_invitations ∧
      (updateInvitationStatus db' inv.id s).team_invitations.length =
        db.team_invitations.length := by
    intro db' inv s hdb hinvmem hinvp
    have hneq : ¬ (i.id = inv.id) := by
      intro h
      have heq : i = inv := hinj hi hinvmem h
      rw [heq] at hterm
      exact hterm hinvp
    constructor
    · show i ∈ db'.team_invitations.map
        (fun j => if j.id = inv.id then { j with status := s } else j)
      rw [hdb]
      have hfi : (fun j => if j.id = inv.id then { j with status := s } else j) i
          = i := by simp [hneq]
      exact hfi ▸ List.mem_map_of_mem _ hi
    · show (db'.team_invitations.map
        (fun j => if j.id = inv.id then { j with status := s } else j)).length = _
      rw [hdb, List.length_map]
  cases op with
  | accept invitation_id user_id user_email now =>
    show i ∈ (TeamsRouter.accept_invitation db invitation_id user_id
        user_email now).2.team_invitations ∧
      (TeamsRouter.accept_invitation db invitation_id user_id
        user_email now).2.team_invitations.length = db.team_invitations.length
    unfold TeamsRouter.accept_invitation
    cases hh : (db.team_invitations.filter
        (fun j => j.id = invitation_id ∧ j.status = InvStatus.pending)).head? with
    | none => exact ⟨hi, rfl⟩
    | some inv =>
      have hmemf := List.mem_filter.mp (mem_of_head_eq_some hh)
      have hinvp := (of_decide_eq_true hmemf.2).2
      show i ∈ (TeamsRouter.acceptFound db inv user_id
          user_email now).2.team_invitations ∧
        (TeamsRouter.acceptFound db inv user_id
          user_email now).2.team_invitations.length =
          db.team_invitations.length
      unfold TeamsRouter.acceptFound
      by_cases h1 : lowerStr inv.email ≠ lowerStr user_email
      · rw [if_pos h1]; exact ⟨hi, rfl⟩
      · rw [if_neg h1]
        by_cases h2 : inv.expires_at < now
        · rw [if_pos h2]; exact hpres db inv _ rfl hmemf.1 hinvp
        · rw [if_neg h2]
          by_cases h3 : memberExists db inv.team_id user_id = true
          · rw [if_pos h3]; exact hpres db inv _ rfl hmemf.1 hinvp
          · rw [if_neg h3]
            exact hpres (insertTeamMember db inv.team_id user_id
              inv.invited_by now).2 inv _ rfl hmemf.1 hinvp
  | decline invitation_id user_email =>
    show i ∈ (TeamsRouter.decline_invitation db invitation_id
        user_email).2.team_invitations ∧
      (TeamsRouter.decline_invitation db invitation_id
        user_email).2.team_invitations.length = db.team_invitations.length
    unfold TeamsRouter.decline_invitation
    cases user_email with
    | none => exact ⟨hi, rfl⟩
    | some email =>
      show i ∈ (TeamsRouter.declineWithEmail db invitation_id
          email).2.team_invitations ∧
        (TeamsRouter.declineWithEmail db invitation_id
          email).2.team_invitations.length = db.team_invitations.length
      unfold TeamsRouter.declineWithEmail
      cases hh : (db.team_invitations.filter
          (fun j => j.id = invitation_id ∧ j.email = email ∧
            j.status = InvStatus.pending)).head? with
      | none => exact ⟨hi, rfl⟩
      | some inv =>
        have hmemf := List.mem_filter.mp (mem_of_head_eq_some hh)
        have hinvp := (of_decide_eq_true hmemf.2).2.2
        show i ∈ (updateInvitationStatus db inv.id
            InvStatus.declined).team_invitations ∧
          (updateInvitationStatus db inv.id
            InvStatus.declined).team_invitations.length =
            db.team_invitations.length
        exact hpres db inv _ rfl hmemf.1 hinvp
  | getByCode invite_code now =>
    show i ∈ (TeamsRouter.get_invitation_by_code db invite_code
        now).2.team_invitations ∧
      (TeamsRouter.get_invitation_by_code db invite_code
        now).2.team_invitations.length = db.team_invitations.length
    unfold TeamsRouter.get_invitation_by_code
    cases hh : invitationByCode db invite_code with
    | none => exact ⟨hi, rfl⟩
    | some inv =>
      show i ∈ (TeamsRouter.getByCodeFound db inv now).2.team_invitations ∧
        (TeamsRouter.getByCodeFound db inv now).2.team_invitations.length =
          db.team_invitations.length
      unfold TeamsRouter.getByCodeFound
      by_cases h1 : inv.status ≠ InvStatus.pending
      · rw [if_pos h1]; exact ⟨hi, rfl⟩
      · rw [if_neg h1]
        by_cases h2 : inv.expires_at < now
        · rw [if_pos h2]; exact ⟨hi, rfl⟩
        · rw [if_neg h2]; exact ⟨hi, rfl⟩
  | joinByCode invite_code user_id now =>
    show i ∈ (TeamsRouter.join_via_invite_code db invite_code user_id
        now).2.team_invitations ∧
      (TeamsRouter.join_via_invite_code db invite_code user_id
        now).2.team_invitations.length = db.team_invitations.length
    unfold TeamsRouter.join_via_invite_code
    cases hh : invitationByCode db invite_code with
    | none => exact ⟨hi, rfl⟩
    | some inv =>
      have hh' : (db.team_invitations.filter
          (fun j => j.invite_code = invite_code)).head? = some inv := hh
      have hmemf := List.mem_filter.mp (mem_of_head_eq_some hh')
      show i ∈ (TeamsRouter.joinFound db inv user_id now).2.team_invitations ∧
        (TeamsRouter.joinFound db inv user_id now).2.team_invitations.length =
          db.team_invitations.length
      unfold TeamsRouter.joinFound
      by_cases h1 : inv.status ≠ InvStatus.pending
      · rw [if_pos h1]; exact ⟨hi, rfl⟩
      · rw [if_neg h1]
        have hinvp : inv.status = InvStatus.pending := not_not.mp h1
        by_cases h2 : inv.expires_at < now
        · rw [if_pos h2]; exact ⟨hi, rfl⟩
        · rw [if_neg h2]
          by_cases h3 : memberExists db inv.team_id user_id = true
          · rw [if_pos h3]; exact ⟨hi, rfl⟩
          · rw [if_neg h3]
            exact hpres (insertTeamMember db inv.team_id user_id
              inv.invited_by now).2 inv _ rfl hmemf.1 hinvp

/-- An invitation already in the terminal state `accepted`, plus a store. -/
def invDone : InvitationRec :=
  { invExpired with id := 2, invite_code := "c2", status := .accepted }

/-- A store whose only invitation is terminal. -/
def dbI2 : DB := { team_invitations := [invDone] }

/-- C6 witness: an accept aimed at the terminal invitation leaves the
    identical record in place. -/
theorem C6_terminal_invitations_never_transition_witness :
    invDone ∈ (invOpDB dbI2 (InvOp.accept 2 "B" "e" 10)).team_invitations ∧
    (invOpDB dbI2 (InvOp.accept 2 "B" "e" 10)).team_invitations.length =
      dbI2.team_invitations.length := by
  exact C6_terminal_invitations_never_transition dbI2 (InvOp.accept 2 "B" "e" 10)
    invDone (by decide) (by decide) (by decide)

/-- C7 (claim contradicted by the code).
The error map of `verify_jwt_token`: an expired token and a malformed or
invalid-signature token do answer 401 as claimed; but with neither a JWKS URL
nor a shared secret configured, the deliberately raised
`HTTPException(500, "JWT verification not configured...")` sits inside the
`try` block, is caught by the final bare `except Exception`, and the caller
receives 401 "Could not validate credentials" — not the claimed 500. -/
theorem C7_missing_config_answers_401_not_500 :
    Auth.verifyBody ⟨none, none⟩ PyJwtOutcome.ok ⟨"u", "e"⟩ =
      .error (.httpException 500
        "JWT verification not configured. Set SUPABASE_JWKS_URL or SUPABASE_JWT_SECRET.") ∧
    Auth.verify_jwt_token ⟨none, none⟩ PyJwtOutcome.ok ⟨"u", "e"⟩ =
      .error (401, "Could not validate credentials") ∧
    Auth.verify_jwt_token ⟨some "jwks", none⟩ PyJwtOutcome.expiredSignature
        ⟨"u", "e"⟩ = .error (401, "Token has expired") ∧
    Auth.verify_jwt_token ⟨some "jwks", none⟩ PyJwtOutcome.invalidToken
        ⟨"u", "e"⟩ = .error (401, "Invalid authentication token") ∧
    Auth.verify_jwt_token ⟨none, some "secret"⟩ PyJwtOutcome.expiredSignature
        ⟨"u", "e"⟩ = .error (401, "Token has expired") ∧
    Auth.verify_jwt_token ⟨none, some "secret"⟩ PyJwtOutcome.invalidToken
        ⟨"u", "e"⟩ = .error (401, "Invalid authentication token") := by
  exact ⟨rfl, rfl, rfl, rfl, rfl, rfl⟩

/-- C8.
Once write access to the goal is verified, an upload to a goal that already
stores 10 (or more) files is rejected with the 400 capacity error and inserts
nothing — so the 11th upload fails while the 10th (from 9 stored files)
succeeds; below the cap, a file above 10485760 bytes is rejected with 413 and
inserts nothing; below both limits the metadata row is inserted. -/
theorem C8_upload_limits (db : DB) (goal_id : Nat) (fn : String) (sz : Nat)
    (mt : Option String) (uid path : String) (now : Int) (g : GoalRec)
    (hacc : FilesRouter.verify_goal_access db goal_id uid true = .ok g) :
    ((db.goal_files.filter (fun f => f.goal_id = goal_id)).length ≥ 10 →
      FilesRouter.upload_goal_file db goal_id fn sz mt uid path now =
        (.error (400, "Maximum of 10 files per goal exceeded"), db)) ∧
    ((db.goal_files.filter (fun f => f.goal_id = goal_id)).length < 10 →
      sz > 10485760 →
      FilesRouter.upload_goal_file db goal_id fn sz mt uid path now =
        (.error (413, "File size exceeds 10MB limit"), db)) ∧
    ((db.goal_files.filter (fun f => f.goal_id = goal_id)).length < 10 →
      sz ≤ 10485760 →
      FilesRouter.upload_goal_file db goal_id fn sz mt uid path now =
        (.ok (FilesRouter.uploadedFileRec db goal_id fn sz mt uid path now),
          { db with goal_files := db.goal_files ++
              [FilesRouter.uploadedFileRec db goal_id fn sz mt uid path now] })) := by
  have hstep : FilesRouter.upload_goal_file db goal_id fn sz mt uid path now =
      FilesRouter.uploadChecked db goal_id fn sz mt uid path now := by
    unfold FilesRouter.upload_goal_file
    rw [hacc]
  refine ⟨?_, ?_, ?_⟩
  · intro hge
    rw [hstep]
    unfold FilesRouter.uploadChecked
    rw [if_pos hge]
  · intro hlt hsz
    rw [hstep]
    unfold FilesRouter.uploadChecked
    rw [if_neg (by omega), if_pos hsz]
  · intro hlt hsz
    rw [hstep]
    unfold FilesRouter.uploadChecked
    rw [if_neg (by omega), if_neg (by omega)]

/-- C8 witness: on the one-goal store with no files, the owner's small upload
    inserts the metadata row. -/
theorem C8_upload_limits_witness :
    FilesRouter.upload_goal_file dbA 1 "f.txt" 5 none "A" "p" 3 =
      (.ok (FilesRouter.uploadedFileRec dbA 1 "f.txt" 5 none "A" "p" 3),
        { dbA with goal_files := dbA.goal_files ++
            [FilesRouter.uploadedFileRec dbA 1 "f.txt" 5 none "A" "p" 3] }) := by
  exact (C8_upload_limits dbA 1 "f.txt" 5 none "A" "p" 3 gA rfl).2.2
    (by decide) (by decide)

/-- The PostgreSQL null-placement order is total. -/
theorem pgNullsOrder_total (d nf : Bool) (a b : Option Int) :
    pgNullsOrder d nf a b ∨ pgNullsOrder d nf b a := by
  cases a <;> cases b <;> cases d <;> cases nf <;>
    simp [pgNullsOrder] <;> exact le_total _ _

/-- The PostgreSQL null-placement order is transitive. -/
theorem pgNullsOrder_trans (d nf : Bool) (a b c : Option Int)
    (hab : pgNullsOrder d nf a b) (hbc : pgNullsOrder d nf b c) :
    pgNullsOrder d nf a c := by
  cases a <;> cases b <;> cases c <;> cases d <;> cases nf <;>
    simp_all [pgNullsOrder] <;> omega

instance (d nf : Bool) :
    IsTotal GoalRec (fun a b => pgNullsOrder d nf a.target_date b.target_date) :=
  ⟨fun a b => pgNullsOrder_total d nf _ _⟩

instance (d nf : Bool) :
    IsTrans GoalRec (fun a b => pgNullsOrder d nf a.target_date b.target_date) :=
  ⟨fun _ _ _ hab hbc => pgNullsOrder_trans d nf _ _ _ hab hbc⟩

/-- Flattening join data onto each goal preserves pairwise ordering of the
    underlying rows. -/
theorem pairwise_goalfull_map (db : DB) (l : List GoalRec) (d nf : Bool)
    (h : l.Pairwise (fun a b => pgNullsOrder d nf a.target_date b.target_date)) :
    (l.map (fun r =>
        GoalFull.mk r (teamsOfGoal db r.id) (categoriesOfGoal db r.id))).Pairwise
      (fun a b => pgNullsOrder d nf a.goal.target_date b.goal.target_date) := by
  rw [List.pairwise_map]
  exact h

/-- The list produced by `Goal.get_all` under `sort_by = "target_date"` is
    pairwise ordered by the null-placement order the code requests. -/
theorem get_all_pairwise (db : DB) (uid : String) (search : Option String)
    (status : Option (List String)) (category_ids : Option (List Nat))
    (tdf tdt : Option Int) (sort_order : String) (d nf : Bool)
    (horder : ∀ l : List GoalRec, orderGoals "target_date" sort_order l =
      l.insertionSort (fun a b => pgNullsOrder d nf a.target_date b.target_date)) :
    (Goal.get_all db uid search status category_ids tdf tdt
      "target_date" sort_order).Pairwise
      (fun a b => pgNullsOrder d nf a.goal.target_date b.goal.target_date) := by
  unfold Goal.get_all
  dsimp only
  rw [horder]
  have hs : (List.insertionSort
      (fun a b => pgNullsOrder d nf a.target_date b.target_date)
      (db.goals.filter (fun r =>
        r.user_id = uid ∧ matchesSearch search r = true ∧
          matchesStatus status r = true ∧
          matchesDateRange tdf tdt r = true))).Pairwise
      (fun a b => pgNullsOrder d nf a.target_date b.target_date) :=
    List.sorted_insertionSort _ _
  have hmap := pairwise_goalfull_map db _ d nf hs
  cases category_ids with
  | none => exact hmap
  | some cids =>
    by_cases hc : cids.isEmpty = true
    · simpa [hc] using hmap
    · simp only [hc]
      exact hmap.filter _

/-- C9.
In every goal list request sorted by `target_date`, goals with a null
`target_date` all come before goals with a non-null one when the order is
`asc`, and all come after them when the order is `desc`. -/
theorem C9_null_target_date_placement (db : DB) (uid : String)
    (search : Option String) (status : Option (List String))
    (category_ids : Option (List Nat)) (tdf tdt : Option Int) :
    (Goal.get_all db uid search status category_ids tdf tdt
      "target_date" "asc").Pairwise
      (fun a b => ¬(a.goal.target_date ≠ none ∧ b.goal.target_date = none)) ∧
    (Goal.get_all db uid search status category_ids tdf tdt
      "target_date" "desc").Pairwise
      (fun a b => ¬(a.goal.target_date = none ∧ b.goal.target_date ≠ none)) := by
  constructor
  · have h := get_all_pairwise db uid search status category_ids tdf tdt
      "asc" false true (fun l => by simp [orderGoals])
    refine h.imp ?_
    intro a b hr hcon
    obtain ⟨x, hx⟩ := Option.ne_none_iff_exists'.mp hcon.1
    rw [hx, hcon.2] at hr
    simpa [pgNullsOrder] using hr
  · have h := get_all_pairwise db uid search status category_ids tdf tdt
      "desc" true false (fun l => by simp [orderGoals])
    refine h.imp ?_
    intro a b hr hcon
    obtain ⟨x, hx⟩ := Option.ne_none_iff_exists'.mp hcon.2
    rw [hx, hcon.1] at hr
    simpa [pgNullsOrder] using hr

/-- C10.
In every update path (`Goal.update`, `Team.update`, `crud.update_goal`) a
patch field whose value is null is treated exactly like an omitted field:
the stored value is kept.  The store is only ever rewritten through the
respective apply function, and that function never writes null into
`description`, `target_date` or `parent_goal_id` of a goal (and never
touches `template_id`), nor into `name`, `description` or `color_theme` of a
team — so no update can reset such a field to null once it is non-null. -/
theorem C10_null_patch_leaves_field (u : GoalUpdate) (r : GoalRec) (db : DB)
    (g : GoalRec) (uid : String) (tu : TeamUpdate) (t tr : TeamRec) (tdb : DB)
    (cu : CrudGoalUpdate) :
    ((GoalModel.update db g u uid).2.goals = db.goals ∨
      (GoalModel.update db g u uid).2.goals =
        db.goals.map (fun x =>
          if x.id = g.id ∧ x.user_id = uid then GoalModel.applyGoalUpdate u x
          else x)) ∧
    (u.description = none →
      (GoalModel.applyGoalUpdate u r).description = r.description) ∧
    (r.description ≠ none → (GoalModel.applyGoalUpdate u r).description ≠ none) ∧
    (u.target_date = none →
      (GoalModel.applyGoalUpdate u r).target_date = r.target_date) ∧
    (r.target_date ≠ none → (GoalModel.applyGoalUpdate u r).target_date ≠ none) ∧
    (u.parent_goal_id = none →
      (GoalModel.applyGoalUpdate u r).parent_goal_id = r.parent_goal_id) ∧
    (r.parent_goal_id ≠ none →
      (GoalModel.applyGoalUpdate u r).parent_goal_id ≠ none) ∧
    (GoalModel.applyGoalUpdate u r).template_id = r.template_id ∧
    ((TeamModel.update tdb t tu uid).2.teams = tdb.teams ∨
      (TeamModel.update tdb t tu uid).2.teams =
        tdb.teams.map (fun x =>
          if x.id = t.id then TeamModel.applyTeamUpdate tu x else x)) ∧
    (tu.name = none → (TeamModel.applyTeamUpdate tu tr).name = tr.name) ∧
    (tu.description = none →
      (TeamModel.applyTeamUpdate tu tr).description = tr.description) ∧
    (tr.description ≠ none →
      (TeamModel.applyTeamUpdate tu tr).description ≠ none) ∧
    (tu.color_theme = none →
      (TeamModel.applyTeamUpdate tu tr).color_theme = tr.color_theme) ∧
    ((Crud.update_goal db g.id cu).2.goals = db.goals ∨
      (Crud.update_goal db g.id cu).2.goals =
        db.goals.map (fun x =>
          if x.id = g.id then Crud.applyCrudGoalUpdate cu x else x)) ∧
    (cu.description = none →
      (Crud.applyCrudGoalUpdate cu r).description = r.description) ∧
    (r.description ≠ none → (Crud.applyCrudGoalUpdate cu r).description ≠ none) ∧
    (cu.target_date = none →
      (Crud.applyCrudGoalUpdate cu r).target_date = r.target_date) ∧
    (r.target_date ≠ none → (Crud.applyCrudGoalUpdate cu r).target_date ≠ none) := by
  refine ⟨?_, ?_, ?_, ?_, ?_, ?_, ?_, ?_, ?_, ?_, ?_, ?_, ?_, ?_, ?_, ?_, ?_, ?_⟩
  · by_cases h : GoalModel.hasSetField u = true
    · exact Or.inr (by simp [GoalModel.update, h])
    · exact Or.inl (by simp [GoalModel.update, h])
  · intro h; simp [GoalModel.applyGoalUpdate, h]
  · intro hr
    cases hu : u.description <;> simp [GoalModel.applyGoalUpdate, hu] <;>
      simpa using hr
  · intro h; simp [GoalModel.applyGoalUpdate, h]
  · intro hr
    cases hu : u.target_date <;> simp [GoalModel.applyGoalUpdate, hu] <;>
      simpa using hr
  · intro h; simp [GoalModel.applyGoalUpdate, h]
  · intro hr
    cases hu : u.parent_goal_id <;> simp [GoalModel.applyGoalUpdate, hu] <;>
      simpa using hr
  · simp [GoalModel.applyGoalUpdate]
  · by_cases h : TeamModel.hasSetField tu = true
    · by_cases ho : TeamModel.is_user_owner tdb t.id uid = true
      · exact Or.inr (by simp [TeamModel.update, h, ho])
      · exact Or.inl (by simp [TeamModel.update, h, ho])
    · exact Or.inl (by simp [TeamModel.update, h])
  · intro h; simp [TeamModel.applyTeamUpdate, h]
  · intro h; simp [TeamModel.applyTeamUpdate, h]
  · intro hr
    cases hu : tu.description <;> simp [TeamModel.applyTeamUpdate, hu] <;>
      simpa using hr
  · intro h; simp [TeamModel.applyTeamUpdate, h]
  · by_cases h : Crud.hasSetField cu = true
    · exact Or.inr (by simp [Crud.update_goal, h])
    · exact Or.inl (by simp [Crud.update_goal, h])
  · intro h; simp [Crud.applyCrudGoalUpdate, h]
  · intro hr
    cases hu : cu.description <;> simp [Crud.applyCrudGoalUpdate, hu] <;>
      simpa using hr
  · intro h; simp [Crud.applyCrudGoalUpdate, h]
  · intro hr
    cases hu : cu.target_date <;> simp [Crud.applyCrudGoalUpdate, hu] <;>
      simpa using hr

/-- C10 witness: on the concrete records, empty patches leave the optional
    fields at their stored non-null values. -/
theorem C10_null_patch_leaves_field_witness :
    (GoalModel.applyGoalUpdate {} gA).description = some "d" ∧
    (GoalModel.applyGoalUpdate {} gA).target_date = some 7 ∧
    (TeamModel.applyTeamUpdate {} tA).description = tA.description ∧
    (Crud.applyCrudGoalUpdate {} gA).description = some "d" := by
  have h := C10_null_patch_leaves_field {} gA dbA gA "A" {} tA tA dbA {}
  refine ⟨?_, ?_, ?_, ?_⟩
  · rw [h.2.1 rfl]; decide
  · rw [h.2.2.2.1 rfl]; decide
  · exact h.2.2.2.2.2.2.2.2.2.2.1 rfl
  · rw [h.2.2.2.2.2.2.2.2.2.2.2.2.2.2.1 rfl]; decide
